import Mathlib

/-!
Verification of the quote-server web application (src/app.py).

The program is a single-route Flask application:

* a module-level list `quotes` of five string literals;
* a handler `home` for GET `/` that evaluates `random.choice(quotes)`
  and returns `render_template('index.html', message=<chosen quote>)`,
  which the framework wraps in an HTTP 200 response.

Shallow embedding choices:

* `random.choice(seq)` draws an index uniformly from `[0, len(seq))` and
  raises `IndexError` on an empty sequence.  We model the generator draw
  as a natural number `k` supplied from outside and the selected index as
  `k % length`; the empty-sequence error is the `none` branch.
* `render_template` is an external collaborator: we record the call as a
  `Rendered` value holding the template name and the single named string
  variable `message` passed to it.
* The process-wide pseudo-random generator of the `random` module is
  modelled as an infinite stream of draws `Nat → Nat` together with a
  cursor `rngPos` into that stream; each call to `random.choice` consumes
  one draw and advances the cursor.  Process state visible to the handler
  is the module-level quote list plus that cursor.
-/

/-- The module-level quote list of src/app.py, lines 6-12. -/
def quotes : List String :=
  ["💡 Believe in yourself — you’re unstoppable!",
   "🚀 Every great dream begins with a dreamer.",
   "🔥 The best time to start was yesterday. The next best time is now.",
   "🌟 Code. Deploy. Repeat. Success follows consistency.",
   "🎯 Focus on progress, not perfection."]

/-- Model of `random.choice(l)` given the generator draw `k`: selects the
element at index `k % l.length`; `none` models the `IndexError` raised on an
empty sequence (for `l = []` the lookup is out of range for every `k`). -/
def random_choice {α : Type} (l : List α) (k : Nat) : Option α :=
  l[k % l.length]?

/-- A call to the external template renderer: the template name and the one
named string variable `message` handed to it. -/
structure Rendered where
  template : String
  message : String

/-- Model of `render_template('index.html', message=message)`: records the
fixed template and the string passed for substitution. -/
def render_template (tid : String) (message : String) : Rendered :=
  { template := tid, message := message }

/-- An HTTP response: the status code set by the framework and the rendered
body. -/
structure Response where
  status : Nat
  body : Rendered

/-- The handler body of `home` (src/app.py lines 15-17), generalised over the
quote list it reads: choose one element with the generator draw `k` and render
it; a successful render is returned by Flask with status 200. -/
def homeWith (l : List String) (k : Nat) : Option Response :=
  (random_choice l k).map fun m =>
    { status := 200, body := render_template "index.html" m }

/-- The `home` view function (src/app.py lines 14-17) as a function of the
generator draw `k`: it reads the module-level `quotes` list. -/
def home (k : Nat) : Option Response :=
  homeWith quotes k

/-- An HTTP request as seen by the framework.  The Python handler takes no
arguments and reads nothing from the request object. -/
structure Request where
  method : String
  path : String
  headers : List (String × String)
  query : List (String × String)
  reqBody : String

/-- The handler as dispatched for a request: `def home()` receives no request
data, so the request argument is ignored and only the generator draw matters. -/
def homeReq (_req : Request) (k : Nat) : Option Response :=
  home k

/-- Process state visible to the handler: the module-level quote list and the
cursor of the process-wide pseudo-random generator into its stream of draws. -/
structure ProcState where
  quotes : List String
  rngPos : Nat

/-- One invocation of the handler in process state `s`, with `stream` the
generator's infinite sequence of draws: `random.choice` consumes the draw at
the current cursor and advances the cursor by one; nothing else of the state
is written. -/
def homeStep (stream : Nat → Nat) (s : ProcState) : Option Response × ProcState :=
  (homeWith s.quotes (stream s.rngPos), { s with rngPos := s.rngPos + 1 })

/-- Serve `n` successive requests to `/` starting from state `s`, returning
the list of responses and the final state. -/
def serveRequests (stream : Nat → Nat) (s : ProcState) : Nat → List (Option Response) × ProcState
  | 0 => ([], s)
  | n + 1 =>
    let step := homeStep stream s
    let rest := serveRequests stream step.2 n
    (step.1 :: rest.1, rest.2)

/-! ### Helper lemmas -/

/-- Every quote in the configured list is a non-empty string. -/
lemma quotes_ne_empty : ∀ q ∈ quotes, q ≠ "" := by decide

/-- The configured list has five quotes. -/
lemma quotes_length : quotes.length = 5 := rfl

/-- On the non-empty `quotes` list, `home` always succeeds and returns the
element at index `k % quotes.length`, rendered unmodified. -/
lemma home_yields (k : Nat) :
    ∃ q, q ∈ quotes ∧ random_choice quotes k = some q ∧
      home k = some { status := 200, body := render_template "index.html" q } := by
  have hlt : k % quotes.length < quotes.length :=
    Nat.mod_lt _ (by decide)
  refine ⟨quotes.get ⟨k % quotes.length, hlt⟩, List.get_mem _ _ hlt, ?_, ?_⟩
  · simp [random_choice, List.getElem?_eq_getElem hlt]
  · simp [home, homeWith, random_choice, List.getElem?_eq_getElem hlt]

/-- Seed-counting form of uniformity of `k % n`: among the seeds
`0, …, n*m - 1`, exactly `m` select the residue `i < n`. -/
lemma card_filter_mod (n i : Nat) (hi : i < n) :
    ∀ m, ((Finset.range (n * m)).filter (fun k => k % n = i)).card = m := by
  intro m
  induction m with
  | zero => simp
  | succ m ih =>
    have hsplit : Finset.range (n * (m + 1)) =
        Finset.range (n * m) ∪ Finset.Ico (n * m) (n * m + n) := by
      rw [Nat.mul_succ, Finset.range_eq_Ico,
        Finset.Ico_union_Ico_eq_Ico (Nat.zero_le _) (Nat.le_add_right _ _)]
    have hdisj : Disjoint
        ((Finset.range (n * m)).filter (fun k => k % n = i))
        ((Finset.Ico (n * m) (n * m + n)).filter (fun k => k % n = i)) := by
      refine Finset.disjoint_left.mpr ?_
      intro a ha hb
      have h1 : a < n * m := Finset.mem_range.mp (Finset.mem_filter.mp ha).1
      have h2 : n * m ≤ a := (Finset.mem_Ico.mp (Finset.mem_filter.mp hb).1).1
      omega
    have hico : (Finset.Ico (n * m) (n * m + n)).filter (fun k => k % n = i) =
        {n * m + i} := by
      ext a
      simp only [Finset.mem_filter, Finset.mem_Ico, Finset.mem_singleton]
      constructor
      · rintro ⟨⟨hle, hltu⟩, hmod⟩
        have hrep : a = n * m + (a - n * m) := by omega
        have hsmall : a - n * m < n := by omega
        have : a % n = (a - n * m) % n := by
          conv_lhs => rw [hrep]
          rw [Nat.mul_add_mod]
        rw [Nat.mod_eq_of_lt hsmall] at this
        omega
      · rintro rfl
        refine ⟨⟨Nat.le_add_right _ _, by omega⟩, ?_⟩
        rw [Nat.mul_add_mod, Nat.mod_eq_of_lt hi]
    rw [hsplit, Finset.filter_union, Finset.card_union_of_disjoint hdisj, ih,
      hico]
    simp

/-- The responses of `serveRequests` at position `i`: the `i`-th request is
answered from the draw at stream position `s.rngPos + i`, independently of
every other draw. -/
lemma serveRequests_get (stream : Nat → Nat) :
    ∀ (n i : Nat) (s : ProcState), i < n →
      (serveRequests stream s n).1[i]? = some (homeWith s.quotes (stream (s.rngPos + i))) := by
  intro n
  induction n with
  | zero => intro i s h; omega
  | succ n ih =>
    intro i s h
    cases i with
    | zero => simp [serveRequests, homeStep]
    | succ i =>
      have := ih i { s with rngPos := s.rngPos + 1 } (by omega)
      simp only [serveRequests, homeStep] at *
      simpa [Nat.add_assoc, Nat.add_comm 1 i] using this

/-- The final state of `serveRequests` keeps the quote list unchanged. -/
lemma serveRequests_quotes (stream : Nat → Nat) :
    ∀ (n : Nat) (s : ProcState), (serveRequests stream s n).2.quotes = s.quotes := by
  intro n
  induction n with
  | zero => intro s; rfl
  | succ n ih => intro s; simpa [serveRequests, homeStep] using ih _

/-- The configured quote list has no duplicate entries. -/
lemma quotes_nodup : quotes.Nodup := by decide

/-! ### Claim theorems -/

/-- C1: for every request to `/` (every generator draw `k`), the handler
returns a response with status 200 whose body's quote string is a member of
the configured quote list and is non-empty. -/
theorem home_status_200_quote_in_list (k : Nat) :
    ∃ r : Response, home k = some r ∧ r.status = 200 ∧
      r.body.message ∈ quotes ∧ r.body.message ≠ "" := by
  obtain ⟨q, hq, _, hh⟩ := home_yields k
  exact ⟨_, hh, rfl, hq, quotes_ne_empty q hq⟩

/-- C2: the selection is uniform over the quote list: over the seeds
`0, …, quotes.length * m - 1` (a uniform draw of the selection index repeated
`m` full periods), every element of the list is chosen exactly `m` times, so
each element is chosen with equal probability. -/
theorem choice_uniform (m i : Nat) (hi : i < quotes.length) :
    ((Finset.range (quotes.length * m)).filter
      (fun k => random_choice quotes k = quotes[i]?)).card = m := by
  have hcong : ∀ k ∈ Finset.range (quotes.length * m),
      (random_choice quotes k = quotes[i]?) ↔ (k % quotes.length = i) := by
    intro k _
    constructor
    · intro h
      have hk : k % quotes.length < quotes.length := Nat.mod_lt _ (by decide)
      simp only [random_choice] at h
      exact List.getElem?_inj hk quotes_nodup h
    · intro h
      simp only [random_choice, h]
  rw [Finset.filter_congr hcong]
  exact card_filter_mod quotes.length i hi m

/-- Witness for C2 at `m = 2`, `i = 3`: among the 10 seeds `0, …, 9`, the
fourth quote is selected exactly twice. -/
theorem choice_uniform_witness :
    3 < quotes.length ∧
    ((Finset.range (quotes.length * 2)).filter
      (fun k => random_choice quotes k = quotes[3]?)).card = 2 :=
  ⟨by decide, choice_uniform 2 3 (by decide)⟩

/-- C3: the empty-list error branch of `random.choice` is unreachable: the
quote list is a non-empty literal, and for every generator draw the handler
succeeds (never the `none` branch that models `IndexError`). -/
theorem empty_list_error_unreachable :
    quotes ≠ [] ∧ ∀ k : Nat, (home k).isSome = true := by
  refine ⟨by decide, fun k => ?_⟩
  obtain ⟨q, _, _, hh⟩ := home_yields k
  rw [hh]
  rfl

/-- C4: selection is independent across requests: the `i`-th response of a
run is determined by the generator draw consumed by request `i` alone — if
two generator streams agree on that one draw, the `i`-th responses agree, no
matter how the streams differ at every other request. -/
theorem requests_independent (stream1 stream2 : Nat → Nat) (s : ProcState)
    (n i : Nat) (hi : i < n)
    (h : stream1 (s.rngPos + i) = stream2 (s.rngPos + i)) :
    (serveRequests stream1 s n).1[i]? = (serveRequests stream2 s n).1[i]? := by
  rw [serveRequests_get stream1 n i s hi, serveRequests_get stream2 n i s hi, h]

/-- Witness for C4: two streams that agree only at position 0 produce the same
first response in a two-request run. -/
theorem requests_independent_witness :
    (0 : Nat) < 2 ∧
    (fun _ : Nat => 0) (({ quotes := quotes, rngPos := 0 } : ProcState).rngPos + 0) =
      (fun j : Nat => if j = 0 then 0 else 7)
        (({ quotes := quotes, rngPos := 0 } : ProcState).rngPos + 0) ∧
    (serveRequests (fun _ => 0) { quotes := quotes, rngPos := 0 } 2).1[0]? =
      (serveRequests (fun j => if j = 0 then 0 else 7)
        { quotes := quotes, rngPos := 0 } 2).1[0]? :=
  ⟨by decide, by decide,
    requests_independent _ _ _ 2 0 (by decide) (by decide)⟩

/-- C5: boundary case: on a quote list with exactly one element, every request
returns that single quote, whatever the generator draw. -/
theorem singleton_list_always_that_quote (q : String) (k : Nat) :
    homeWith [q] k = some { status := 200, body := render_template "index.html" q } := by
  simp [homeWith, random_choice, Nat.mod_one]

/-- C6: the quote list is immutable: one handler invocation, and any run of
`n` requests, leaves the state's quote list (contents, length and order)
exactly as it was. -/
theorem quote_list_immutable (stream : Nat → Nat) (s : ProcState) (n : Nat) :
    (homeStep stream s).2.quotes = s.quotes ∧
    (serveRequests stream s n).2.quotes = s.quotes :=
  ⟨rfl, serveRequests_quotes stream n s⟩

/-- C7 counterexample: the handler does not leave every piece of process
state unchanged — invoking it from the initial state advances the pseudo-random
generator's cursor. -/
theorem handler_advances_rng_state :
    (homeStep (fun _ => 0) { quotes := quotes, rngPos := 0 }).2.rngPos ≠
      ({ quotes := quotes, rngPos := 0 } : ProcState).rngPos := by
  decide

/-- C7 (amended): beyond producing the response the handler performs no
logging and no storage writes, and the only process state it changes is the
process-wide pseudo-random generator's state, which it advances by one draw;
in particular the quote list is unchanged. -/
theorem handler_state_change_only_rng (stream : Nat → Nat) (s : ProcState) :
    (homeStep stream s).2.quotes = s.quotes ∧
    (homeStep stream s).2.rngPos = s.rngPos + 1 :=
  ⟨rfl, rfl⟩

/-- C8: the handler fulfils the template contract: it invokes the renderer
with the fixed template `index.html` and the single named string variable
`message` bound to the chosen quote, passed through unmodified. -/
theorem template_contract (k : Nat) :
    ∃ q, random_choice quotes k = some q ∧
      home k = some { status := 200, body := render_template "index.html" q } := by
  obtain ⟨q, _, hc, hh⟩ := home_yields k
  exact ⟨q, hc, hh⟩

/-- C9: the handler consumes no request parameters: for any two requests
handled from the same generator state, the response is identical whatever the
method, path, headers, query or body of either request. -/
theorem no_request_parameters_consumed (r1 r2 : Request) (k : Nat) :
    homeReq r1 k = homeReq r2 k :=
  rfl

/-- C10: the configured quote list consists of exactly five pairwise-distinct
non-empty strings, and over one uniform period of seeds each quote is selected
exactly once — probability one fifth each. -/
theorem quotes_five_distinct_nonempty :
    quotes.length = 5 ∧ quotes.Nodup ∧ (∀ q ∈ quotes, q ≠ "") ∧
    ∀ q ∈ quotes,
      ((Finset.range quotes.length).filter
        (fun k => random_choice quotes k = some q)).card = 1 := by
  refine ⟨rfl, quotes_nodup, quotes_ne_empty, ?_⟩
  decide
